import Mathlib

/-!
Verification of the Tendermint light-client `ClientState` module
(`crates/ibc/src/clients/ics07_tendermint/client_state.rs`).

The Rust source is embedded shallowly: pure functions become Lean
functions, `Result` becomes `Except`, the storage context becomes an
explicit record that is passed and returned, and machine integers become
`Nat`/`Int` (no arithmetic in this module can overflow a `u64` in a way
any claim depends on; durations are modelled as total nanosecond counts).
Types that live in sibling crates of the repository (heights, chain
identifiers, trust thresholds, proof specs) are not part of the embedded
source file; their definitions are modelled from the specification
document and are marked `Modelled from the spec:` in their doc comments.
-/

deriving instance DecidableEq for Except

namespace Ics07

/-- Modelled from the spec: two-part `(revision_number, revision_height)`
position identifier of the counterparty chain, ordered lexicographically
by revision number and then revision height.  The `Height` type itself
lives in the core host crate, outside the embedded source file. -/
structure Height where
  revision_number : Nat
  revision_height : Nat
deriving DecidableEq, BEq

/-- Lexicographic strict order on heights (revision number first). -/
def Height.lt (a b : Height) : Bool :=
  a.revision_number < b.revision_number ∨
    (a.revision_number = b.revision_number ∧ a.revision_height < b.revision_height)

/-- Non-strict lexicographic order on heights. -/
def Height.le (a b : Height) : Bool := ! Height.lt b a

/-- `core::cmp::max` on heights (returns the first argument only when the
second is strictly smaller, as in Rust). -/
def Height.maxH (a b : Height) : Height := if Height.lt b a then a else b

/-- Modelled from the spec: the lowest possible height within the given
revision.  A height with `revision_height = 0` is invalid (wire heights
equal to zero are rejected by `Height::try_from`), so the minimum valid
height of a revision has revision height `1`. -/
def Height.minH (revision_number : Nat) : Height :=
  { revision_number := revision_number, revision_height := 1 }

/-- Raw (wire) height: both components are plain `u64` fields and may be
zero. -/
structure RawHeight where
  revision_number : Nat
  revision_height : Nat
deriving DecidableEq

/-- Modelled from the spec: decoding a wire height fails exactly when the
revision height is zero; a zero height is not a valid `Height`. -/
def Height.tryFromRaw (r : RawHeight) : Option Height :=
  if r.revision_height = 0 then none
  else some { revision_number := r.revision_number, revision_height := r.revision_height }

/-- Wire form of a height. -/
def Height.toRaw (h : Height) : RawHeight :=
  { revision_number := h.revision_number, revision_height := h.revision_height }

/-- Modelled from the spec: a rational fraction expressing the minimum
voting-power share; `ZERO` is the distinguished invalid-for-use value
`0/0`.  Lives in `ics07_tendermint/trust_threshold.rs`, outside the
embedded source file. -/
structure TrustThreshold where
  numerator : Nat
  denominator : Nat
deriving DecidableEq

def TrustThreshold.ZERO : TrustThreshold := { numerator := 0, denominator := 0 }

def TrustThreshold.ONE_THIRD : TrustThreshold := { numerator := 1, denominator := 3 }

/-- Wire form of a trust threshold. -/
structure Fraction where
  numerator : Nat
  denominator : Nat
deriving DecidableEq

def TrustThreshold.toFraction (t : TrustThreshold) : Fraction :=
  { numerator := t.numerator, denominator := t.denominator }

/-- Modelled from the spec: converting a wire fraction into a
`TrustThreshold` enforces the type invariant `0 <= num/den < 1`. -/
def TrustThreshold.tryFromFraction (f : Fraction) : Option TrustThreshold :=
  if f.denominator ≠ 0 ∧ f.numerator < f.denominator then
    some { numerator := f.numerator, denominator := f.denominator }
  else none

/-- The delegated representability check of the external Tendermint
verifier crate (`TrustThresholdFraction::new`): the fraction must have a
non-zero denominator and lie in the interval `[1/3, 1]`.  Modelled from
the external crate's documented behaviour (the repository's own tests
exercise it: `1/4` is rejected, `1/3` accepted). -/
def tendermintTrustThresholdAccepts (num den : Nat) : Prop :=
  den ≠ 0 ∧ num ≤ den ∧ den ≤ 3 * num

instance (num den : Nat) : Decidable (tendermintTrustThresholdAccepts num den) :=
  inferInstanceAs (Decidable (den ≠ 0 ∧ num ≤ den ∧ den ≤ 3 * num))

/-- Modelled from the spec: the part of a chain identifier after its last
dash, as a character list. -/
def afterLastDash : List Char → Option (List Char)
  | [] => none
  | c :: rest =>
    match afterLastDash rest with
    | some t => some t
    | none => if c = '-' then some rest else none

/-- Value of a non-empty all-digit character list, if it is one. -/
def digitsToNat (l : List Char) : Option Nat :=
  if l ≠ [] ∧ l.all Char.isDigit then
    some (l.foldl (fun n c => n * 10 + (c.toNat - 48)) 0)
  else none

/-- Modelled from the spec: the revision number a chain identifier encodes
(the numeric suffix after the final dash, `0` when there is none). -/
def parseRevisionNumber (s : String) : Nat :=
  match afterLastDash s.toList with
  | some t => (digitsToNat t).getD 0
  | none => 0

/-- Modelled from the spec: a counterparty chain identifier together with
the revision number it encodes.  The `ChainId` type lives in the core host
crate, outside the embedded source file. -/
structure ChainId where
  id : String
  revision_number : Nat
deriving DecidableEq

/-- Modelled from the spec: parsing a chain identifier from its string
form rejects the empty string and derives the revision number from the
numeric suffix. -/
def ChainId.fromStr (s : String) : Option ChainId :=
  if s = "" then none else some { id := s, revision_number := parseRevisionNumber s }

def ChainId.toStr (c : ChainId) : String := c.id

/-- Type invariant established by every `ChainId` constructor: the stored
revision number is the one its string form encodes. -/
def ChainId.wellFormed (c : ChainId) : Prop :=
  c.id ≠ "" ∧ parseRevisionNumber c.id = c.revision_number

/-- Modelled from the spec: the chain-identifier length bound check
(`chain_id length in [3, MAX_CHAIN_ID_LEN]`). -/
def ChainId.validate_length (c : ChainId) (lo hi : Nat) : Prop :=
  lo ≤ c.id.length ∧ c.id.length ≤ hi

instance (c : ChainId) (lo hi : Nat) : Decidable (c.validate_length lo hi) :=
  inferInstanceAs (Decidable (lo ≤ c.id.length ∧ c.id.length ≤ hi))

/-- `tendermint::chain::id::MAX_LENGTH`. -/
def maxChainIdLen : Nat := 50

/-- Modelled from the spec: one proof-spec descriptor.  Its contents are
opaque to the embedded source file, which only tests the list of specs for
emptiness and passes it through conversions unchanged. -/
structure ProofSpec where
  spec_id : Nat
deriving DecidableEq

/-- Modelled from the spec: the default (cosmos) proof specs, a non-empty
list (IAVL spec and Tendermint spec, contents abstracted). -/
def ProofSpecs.cosmos : List ProofSpec := [{ spec_id := 0 }, { spec_id := 1 }]

/-- The two deprecated allow-update flags, kept for wire compatibility. -/
structure AllowUpdate where
  after_expiry : Bool
  after_misbehaviour : Bool
deriving DecidableEq

/-- The `ics07_tendermint` error type (variants used by the embedded file;
interpolated debug values in the reason strings are elided). -/
inductive Error where
  | InvalidChainId (id : String)
  | InvalidTrustThreshold (reason : String)
  | InvalidTendermintTrustThreshold
  | InvalidMaxClockDrift (reason : String)
  | InvalidLatestHeight (reason : String)
  | Validation (reason : String)
  | MissingTrustingPeriod
  | MissingUnbondingPeriod
  | NegativeMaxClockDrift
  | MissingLatestHeight
  | FrozenHeightNotAllowed
  | Decode
deriving DecidableEq

/-- Whether a path key is blank after trimming (`key.trim().is_empty()`):
every character is whitespace. -/
def trimmedEmpty (s : String) : Bool := s.toList.all Char.isWhitespace

/-- The Tendermint client state.  Durations (`trusting_period`,
`unbonding_period`, `max_clock_drift`) are total nanosecond counts; the
stateless `ProdVerifier` handle is omitted (it is always
`ProdVerifier::default()` and never serialized). -/
structure ClientState where
  chain_id : ChainId
  trust_level : TrustThreshold
  trusting_period : Nat
  unbonding_period : Nat
  max_clock_drift : Nat
  latest_height : Height
  proof_specs : List ProofSpec
  upgrade_path : List String
  allow_update : AllowUpdate
  frozen_height : Option Height
deriving DecidableEq

/-- `ClientState::new_without_validation`: assembles the record with
`frozen_height: None` and no validation. -/
def ClientState.new_without_validation (chain_id : ChainId) (trust_level : TrustThreshold)
    (trusting_period unbonding_period max_clock_drift : Nat) (latest_height : Height)
    (proof_specs : List ProofSpec) (upgrade_path : List String) (allow_update : AllowUpdate) :
    ClientState :=
  { chain_id := chain_id
    trust_level := trust_level
    trusting_period := trusting_period
    unbonding_period := unbonding_period
    max_clock_drift := max_clock_drift
    latest_height := latest_height
    proof_specs := proof_specs
    upgrade_path := upgrade_path
    allow_update := allow_update
    frozen_height := none }

/-- `ClientState::validate`: the nine construction checks, evaluated in
source order with the first failure returned. -/
def ClientState.validate (cs : ClientState) : Except Error Unit :=
  if ¬ cs.chain_id.validate_length 3 maxChainIdLen then
    .error (.InvalidChainId cs.chain_id.id)
  else if cs.trust_level = TrustThreshold.ZERO then
    .error (.InvalidTrustThreshold "ClientState trust-level cannot be zero")
  else if ¬ tendermintTrustThresholdAccepts cs.trust_level.numerator cs.trust_level.denominator then
    .error .InvalidTendermintTrustThreshold
  else if cs.trusting_period ≤ 0 then
    .error (.InvalidTrustThreshold "ClientState trusting period must be greater than zero")
  else if cs.unbonding_period ≤ 0 then
    .error (.InvalidTrustThreshold "ClientState unbonding period must be greater than zero")
  else if cs.unbonding_period ≤ cs.trusting_period then
    .error
      (.InvalidTrustThreshold "ClientState trusting period must be smaller than unbonding period")
  else if cs.max_clock_drift ≤ 0 then
    .error (.InvalidMaxClockDrift "ClientState max-clock-drift must be greater than zero")
  else if ¬ cs.latest_height.revision_number = cs.chain_id.revision_number then
    .error
      (.InvalidLatestHeight "ClientState latest-height revision number must match chain-id version")
  else if cs.proof_specs = [] then
    .error (.Validation "ClientState proof-specs cannot be empty")
  else if cs.upgrade_path.any (fun k => trimmedEmpty k) then
    .error (.Validation "ClientState upgrade-path key at index cannot be empty")
  else .ok ()

/-- `ClientState::new`: validated construction. -/
def ClientState.new (chain_id : ChainId) (trust_level : TrustThreshold)
    (trusting_period unbonding_period max_clock_drift : Nat) (latest_height : Height)
    (proof_specs : List ProofSpec) (upgrade_path : List String) (allow_update : AllowUpdate) :
    Except Error ClientState :=
  let cs := ClientState.new_without_validation chain_id trust_level trusting_period
    unbonding_period max_clock_drift latest_height proof_specs upgrade_path allow_update
  match cs.validate with
  | .error e => .error e
  | .ok _ => .ok cs

/-- `ClientState::with_frozen_height`. -/
def ClientState.with_frozen_height (cs : ClientState) (h : Height) : ClientState :=
  { cs with frozen_height := some h }

/-- `ClientState::is_frozen`. -/
def ClientState.is_frozen (cs : ClientState) : Bool := cs.frozen_height.isSome

/-- Modelled from the spec: a Tendermint consensus state snapshot
(state root, timestamp, next-validator-set hash).  Byte strings are lists
of bytes, timestamps are total nanosecond counts.  The type lives in
`ics07_tendermint/consensus_state.rs`, outside the embedded source file. -/
structure TmConsensusState where
  root : List Nat
  timestamp : Nat
  next_validators_hash : List Nat
deriving DecidableEq

/-- Modelled from the spec: a verified Tendermint header carries the
height it certifies and the consensus-state snapshot extracted from it
(`TmConsensusState::from(header)`).  The header type lives in
`ics07_tendermint/header.rs`, outside the embedded source file. -/
structure TmHeader where
  height : Height
  consensusState : TmConsensusState
deriving DecidableEq

/-- `TmConsensusState::from(header)`. -/
def TmConsensusState.fromHeader (h : TmHeader) : TmConsensusState := h.consensusState

/-- `ClientState::with_header`: advance `latest_height` to the max of the
current value and the header height (the Rust function returns `Result`
but never fails). -/
def ClientState.with_header (cs : ClientState) (header : TmHeader) : ClientState :=
  { cs with latest_height := Height.maxH header.height cs.latest_height }

/-- `Timestamp::duration_since`: the elapsed time from `ts` to `now`, or
`none` when `ts` lies in the future of `now`. -/
def durationSince (now ts : Nat) : Option Nat :=
  if ts ≤ now then some (now - ts) else none

/-- Wire (protobuf) form of the Tendermint client state.  Optional wire
durations are signed nanosecond counts. -/
structure RawTmClientState where
  chain_id : String
  trust_level : Option Fraction
  trusting_period : Option Int
  unbonding_period : Option Int
  max_clock_drift : Option Int
  frozen_height : Option RawHeight
  latest_height : Option RawHeight
  proof_specs : List ProofSpec
  upgrade_path : List String
  allow_update_after_expiry : Bool
  allow_update_after_misbehaviour : Bool
deriving DecidableEq

/-- Modelled from the spec: converting a wire duration into a `Duration`
fails on negative values. -/
def tryIntoDuration (d : Int) : Option Nat :=
  if 0 ≤ d then some d.toNat else none

/-- A required optional wire duration: absence and conversion failure
both report the same error, as in the source
(`.ok_or(e)?.try_into().map_err(|_| e)?`). -/
def reqDuration (o : Option Int) (e : Error) : Except Error Nat :=
  match o with
  | none => .error e
  | some d =>
    match tryIntoDuration d with
    | none => .error e
    | some v => .ok v

/-- A required optional wire height, with a single error for absence and
conversion failure. -/
def reqHeight (o : Option RawHeight) (e : Error) : Except Error Height :=
  match o with
  | none => .error e
  | some r =>
    match Height.tryFromRaw r with
    | none => .error e
    | some h => .ok h

/-- `TryFrom<RawTmClientState> for ClientState`: field extraction in
source order.  A decodable non-zero `frozen_height` is rejected with
`FrozenHeightNotAllowed`; on success the result is
`new_without_validation` of the extracted fields (no validation runs). -/
def ClientState.tryFromRaw (raw : RawTmClientState) : Except Error ClientState :=
  match ChainId.fromStr raw.chain_id with
  | none => .error (.InvalidChainId raw.chain_id)
  | some chain_id =>
    match raw.trust_level with
    | none => .error .MissingTrustingPeriod
    | some f =>
      match TrustThreshold.tryFromFraction f with
      | none => .error (.InvalidTrustThreshold "invalid trust threshold")
      | some trust_level =>
        match reqDuration raw.trusting_period .MissingTrustingPeriod with
        | .error e => .error e
        | .ok trusting_period =>
          match reqDuration raw.unbonding_period .MissingUnbondingPeriod with
          | .error e => .error e
          | .ok unbonding_period =>
            match reqDuration raw.max_clock_drift .NegativeMaxClockDrift with
            | .error e => .error e
            | .ok max_clock_drift =>
              match reqHeight raw.latest_height .MissingLatestHeight with
              | .error e => .error e
              | .ok latest_height =>
                if (raw.frozen_height.bind Height.tryFromRaw).isSome then
                  .error .FrozenHeightNotAllowed
                else
                  .ok (ClientState.new_without_validation chain_id trust_level trusting_period
                    unbonding_period max_clock_drift latest_height raw.proof_specs
                    raw.upgrade_path
                    { after_expiry := raw.allow_update_after_expiry
                      after_misbehaviour := raw.allow_update_after_misbehaviour })

/-- `From<ClientState> for RawTmClientState`: a `None` frozen height is
written as the zero wire height. -/
def ClientState.toRaw (value : ClientState) : RawTmClientState :=
  { chain_id := value.chain_id.toStr
    trust_level := some value.trust_level.toFraction
    trusting_period := some (Int.ofNat value.trusting_period)
    unbonding_period := some (Int.ofNat value.unbonding_period)
    max_clock_drift := some (Int.ofNat value.max_clock_drift)
    frozen_height := some ((value.frozen_height.map Height.toRaw).getD
      { revision_number := 0, revision_height := 0 })
    latest_height := some value.latest_height.toRaw
    proof_specs := value.proof_specs
    upgrade_path := value.upgrade_path
    allow_update_after_expiry := value.allow_update.after_expiry
    allow_update_after_misbehaviour := value.allow_update.after_misbehaviour }

/-- Payload of a protobuf `Any` envelope.  The external binary
serialization library is abstracted: bytes that decode to a given raw
message are represented by that message, undecodable bytes by
`otherBytes`. -/
inductive AnyValue where
  | rawClientState (raw : RawTmClientState)
  | consensusState (c : TmConsensusState)
  | otherBytes
deriving DecidableEq

/-- The tagged `Any` envelope: a type-identifier string plus payload. -/
structure AnyMsg where
  type_url : String
  value : AnyValue
deriving DecidableEq

def TENDERMINT_CLIENT_STATE_TYPE_URL : String := "/ibc.lightclients.tendermint.v1.ClientState"

/-- Modelled from the spec: the fixed type identifier of the Tendermint
consensus-state wire form. -/
def TENDERMINT_CONSENSUS_STATE_TYPE_URL : String :=
  "/ibc.lightclients.tendermint.v1.ConsensusState"

/-- The client error type of the core client crate (variants used by the
embedded file; error payloads of wrapped external errors are elided). -/
inductive ClientError where
  | client (e : Error)
  | UnknownClientStateType (client_state_type : String)
  | UnknownConsensusStateType (consensus_state_type : String)
  | LowUpgradeHeight (upgraded_height client_height : Height)
  | ClientSpecific (description : String)
  | InvalidCommitmentProof
  | Ics23Verification
deriving DecidableEq

/-- `TryFrom<Any> for ClientState`: unknown type identifiers are
rejected; a matching identifier whose bytes do not decode to a raw
Tendermint client state is a decode error. -/
def ClientState.tryFromAny (raw : AnyMsg) : Except ClientError ClientState :=
  if raw.type_url = TENDERMINT_CLIENT_STATE_TYPE_URL then
    match raw.value with
    | .rawClientState r =>
      match ClientState.tryFromRaw r with
      | .ok cs => .ok cs
      | .error e => .error (.client e)
    | _ => .error (.client .Decode)
  else .error (.UnknownClientStateType raw.type_url)

/-- `From<ClientState> for Any`. -/
def ClientState.toAny (client_state : ClientState) : AnyMsg :=
  { type_url := TENDERMINT_CLIENT_STATE_TYPE_URL
    value := .rawClientState client_state.toRaw }

/-- Modelled from the spec: `TryFrom<Any> for TmConsensusState` (the
consensus-state module is outside the embedded source file): unknown type
identifiers are rejected, undecodable bytes are a decode error. -/
def TmConsensusState.tryFromAny (raw : AnyMsg) : Except ClientError TmConsensusState :=
  if raw.type_url = TENDERMINT_CONSENSUS_STATE_TYPE_URL then
    match raw.value with
    | .consensusState c => .ok c
    | _ => .error (.client .Decode)
  else .error (.UnknownConsensusStateType raw.type_url)

/-- The client status state machine: `Active`, `Expired` or `Frozen`. -/
inductive Status where
  | Active
  | Expired
  | Frozen
deriving DecidableEq

/-- `ClientStateValidation::status`.  The validation context is abstracted
to its two observations: the result of the consensus-state lookup at the
client's latest height (`none` models a store `Err`) and the host
timestamp.  The frozen check precedes the lookup, so the result when
frozen does not depend on either observation. -/
def ClientState.status (cs : ClientState) (latestConsensusState : Option TmConsensusState)
    (hostTimestamp : Nat) : Status :=
  if cs.is_frozen then .Frozen
  else
    match latestConsensusState with
    | none => .Expired
    | some c =>
      match durationSince hostTimestamp c.timestamp with
      | some elapsed => if cs.trusting_period < elapsed then .Expired else .Active
      | none => .Active

/-- Decoded Merkle proof structure of the external proof verifier; its
contents are opaque to the embedded source file. -/
structure MerkleProofData where
  proof_id : Nat
deriving DecidableEq

/-- `CommitmentProofBytes`, abstracting the external protobuf decoder:
bytes that decode to a Merkle proof are `some`, malformed bytes `none`. -/
abbrev CommitmentProofBytes : Type := Option MerkleProofData

/-- The external Merkle membership verifier contract: proof specs, root,
full Merkle path, value bytes, decoded proof. -/
def MembershipVerifier : Type :=
  List ProofSpec → List Nat → List String → List Nat → MerkleProofData → Bool

/-- The external Merkle non-membership verifier contract. -/
def NonMembershipVerifier : Type :=
  List ProofSpec → List Nat → List String → MerkleProofData → Bool

/-- `apply_prefix(prefix, vec![path.to_string()])`: the store-wide
commitment prefix prepended to the path's string form (paths are
represented by their string forms). -/
def applyPfx (pfx : String) (path : String) : List String := [pfx, path]

/-- `ClientStateCommon::verify_membership`: decode the proof bytes (a
decoding failure is the reported `InvalidCommitmentProof` error), then
delegate to the external verifier, mapping its failure to
`Ics23Verification`. -/
def ClientState.verify_membership (cs : ClientState) (mv : MembershipVerifier) (pfx : String)
    (proof : CommitmentProofBytes) (root : List Nat) (path : String) (value : List Nat) :
    Except ClientError Unit :=
  match proof with
  | none => .error .InvalidCommitmentProof
  | some mp =>
    if mv cs.proof_specs root (applyPfx pfx path) value mp then .ok ()
    else .error .Ics23Verification

/-- `ClientStateCommon::verify_non_membership`: identical shape, no value
parameter. -/
def ClientState.verify_non_membership (cs : ClientState) (mnv : NonMembershipVerifier)
    (pfx : String) (proof : CommitmentProofBytes) (root : List Nat) (path : String) :
    Except ClientError Unit :=
  match proof with
  | none => .error .InvalidCommitmentProof
  | some mp =>
    if mnv cs.proof_specs root (applyPfx pfx path) mp then .ok ()
    else .error .Ics23Verification

/-- Outcome of a Rust call that can also abort: `crash` marks an
undefined-behaviour-free panic (here: a slice index out of bounds). -/
inductive Outcome (ε α : Type) where
  | ok (a : α)
  | error (e : ε)
  | crash
deriving DecidableEq

/-- Modelled from the spec: `CommitmentPrefix::try_from(bytes)` of the
commitment crate rejects an empty byte string.  Prefixes are represented
by the string they are built from. -/
def commitmentPfxFromBytes (s : String) : Option String :=
  if s = "" then none else some s

/-- Modelled from the spec: string form of the
`UpgradeClientPath::UpgradedClientState(height)` path. -/
def upgradedClientStatePathStr (h : Nat) : String :=
  "upgradedIBCState/" ++ toString h ++ "/upgradedClient"

/-- Modelled from the spec: string form of the
`UpgradeClientPath::UpgradedClientConsensusState(height)` path. -/
def upgradedConsStatePathStr (h : Nat) : String :=
  "upgradedIBCState/" ++ toString h ++ "/upgradedConsState"

/-- The external protobuf encoding of an `Any` message into bytes
(`Message::encode`), abstracted: the claims never inspect these bytes. -/
def anyEncode (a : AnyMsg) : List Nat := [a.type_url.length]

/-- `ClientStateCommon::verify_upgrade_client`, step for step: decode
both submitted states, reject a non-increasing latest height, reject an
empty upgrade path, then read index `0` of the upgrade path after its
last segment has been popped — on a one-segment path that index is out of
bounds and the function crashes — build the commitment prefix and verify
both membership proofs. -/
def ClientState.verify_upgrade_client (cs : ClientState) (mv : MembershipVerifier)
    (upgraded_client_state upgraded_consensus_state : AnyMsg)
    (proof_upgrade_client proof_upgrade_consensus_state : CommitmentProofBytes)
    (root : List Nat) : Outcome ClientError Unit :=
  match ClientState.tryFromAny upgraded_client_state with
  | .error e => .error e
  | .ok upgraded_tm_client_state =>
    match TmConsensusState.tryFromAny upgraded_consensus_state with
    | .error e => .error e
    | .ok _ =>
      if Height.le upgraded_tm_client_state.latest_height cs.latest_height then
        .error (.LowUpgradeHeight cs.latest_height upgraded_tm_client_state.latest_height)
      else if cs.upgrade_path = [] then
        .error (.ClientSpecific "cannot upgrade client as no upgrade path has been set")
      else
        match cs.upgrade_path.dropLast[0]? with
        | none => .crash
        | some firstSegment =>
          match commitmentPfxFromBytes firstSegment with
          | none => .error .InvalidCommitmentProof
          | some pfx =>
            let last_height := cs.latest_height.revision_height
            match cs.verify_membership mv pfx proof_upgrade_client root
                (upgradedClientStatePathStr last_height) (anyEncode upgraded_client_state) with
            | .error e => .error e
            | .ok _ =>
              match cs.verify_membership mv pfx proof_upgrade_consensus_state root
                  (upgradedConsStatePathStr last_height) (anyEncode upgraded_consensus_state) with
              | .error e => .error e
              | .ok _ => .ok ()

/-- The per-client slice of the external store: the committed client
state, the consensus states keyed by height, and the update-time /
update-height bookkeeping. -/
structure ClientRecord where
  clientState : ClientState
  consensusStates : List (Height × TmConsensusState)
  updateTimes : List (Height × Nat)
  updateHeights : List (Height × Height)
deriving DecidableEq

/-- Key-value lookup in an association list keyed by height. -/
def lookupKV {α : Type} (k : Height) (l : List (Height × α)) : Option α :=
  (l.find? (fun p => p.1 == k)).map (fun p => p.2)

/-- Key-value store (overwrite) in an association list keyed by height. -/
def storeKV {α : Type} (k : Height) (v : α) (l : List (Height × α)) : List (Height × α) :=
  (k, v) :: l.filter (fun p => ! (p.1 == k))

/-- Key removal from an association list keyed by height. -/
def removeKV {α : Type} (k : Height) (l : List (Height × α)) : List (Height × α) :=
  l.filter (fun p => ! (p.1 == k))

/-- The entry with the lowest height, if any. -/
def oldestEntry : List (Height × TmConsensusState) → Option (Height × TmConsensusState)
  | [] => none
  | e :: rest =>
    match oldestEntry rest with
    | none => some e
    | some e2 => some (if Height.lt e2.1 e.1 then e2 else e)

/-- Modelled from the spec: `prune_oldest_consensus_state` (defined in
the `update_client` submodule, outside the embedded source file) removes
at most the single oldest stored consensus state, and only when it has
fallen outside the unbonding period relative to the current host time,
together with its update-time / update-height bookkeeping. -/
def prune_oldest_consensus_state (cs : ClientState) (rec : ClientRecord) (hostTimestamp : Nat) :
    ClientRecord :=
  match oldestEntry rec.consensusStates with
  | none => rec
  | some (h, c) =>
    match durationSince hostTimestamp c.timestamp with
    | none => rec
    | some elapsed =>
      if cs.unbonding_period < elapsed then
        { rec with
          consensusStates := removeKV h rec.consensusStates
          updateTimes := removeKV h rec.updateTimes
          updateHeights := removeKV h rec.updateHeights }
      else rec

/-- `ClientStateExecution::update_state`: prune, then either no-op (a
consensus state already exists at the header height) or commit the new
consensus state (keyed by the advanced latest height), the advanced
client state and the bookkeeping entries; either way the single header
height is returned. -/
def ClientState.update_state (cs : ClientState) (rec : ClientRecord)
    (hostTimestamp : Nat) (hostHeight : Height) (header : TmHeader) :
    ClientRecord × List Height :=
  let header_height := header.height
  let rec1 := prune_oldest_consensus_state cs rec hostTimestamp
  match lookupKV header_height rec1.consensusStates with
  | some _ => (rec1, [header_height])
  | none =>
    let new_consensus_state := TmConsensusState.fromHeader header
    let new_client_state := cs.with_header header
    let rec2 : ClientRecord :=
      { rec1 with
        consensusStates :=
          storeKV new_client_state.latest_height new_consensus_state rec1.consensusStates
        clientState := new_client_state
        updateTimes := storeKV header_height hostTimestamp rec1.updateTimes
        updateHeights := storeKV header_height hostHeight rec1.updateHeights }
    (rec2, [header_height])

/-- `ClientStateExecution::update_state_on_misbehaviour`: store the
current client state frozen at `Height::min(0)`; the client message and
update kind are ignored. -/
def ClientState.update_state_on_misbehaviour (cs : ClientState) (rec : ClientRecord) :
    ClientRecord :=
  { rec with clientState := cs.with_frozen_height (Height.minH 0) }

/-! Concrete values used by witnesses and counterexamples.  They mirror
the dummy client state of the repository's own tests: chain id `ibc-0`,
trust level `1/3`, trusting period `64000s`, unbonding period `128000s`,
max clock drift `3000ms`, latest height `(0, 10)`, default proof specs. -/

def chainIbc0 : ChainId := { id := "ibc-0", revision_number := 0 }

def chainIbc1 : ChainId := { id := "ibc-1", revision_number := 1 }

def noAllow : AllowUpdate := { after_expiry := false, after_misbehaviour := false }

def dummyClientState : ClientState :=
  ClientState.new_without_validation chainIbc0 TrustThreshold.ONE_THIRD
    64000000000000 128000000000000 3000000000
    { revision_number := 0, revision_height := 10 } ProofSpecs.cosmos [] noAllow

/-! Shared helper lemmas. -/

/-- The nine validation checks of `ClientState::new`, as the spec states
them: chain-id length bound, usable and representable trust level,
positive trusting period, positive unbonding period, trusting period
strictly below unbonding period, positive max clock drift, matching
revision numbers, non-empty proof specs, and no blank upgrade-path
segment. -/
def nineChecks (cs : ClientState) : Prop :=
  cs.chain_id.validate_length 3 maxChainIdLen ∧
  cs.trust_level ≠ TrustThreshold.ZERO ∧
  tendermintTrustThresholdAccepts cs.trust_level.numerator cs.trust_level.denominator ∧
  0 < cs.trusting_period ∧
  0 < cs.unbonding_period ∧
  cs.trusting_period < cs.unbonding_period ∧
  0 < cs.max_clock_drift ∧
  cs.latest_height.revision_number = cs.chain_id.revision_number ∧
  cs.proof_specs ≠ [] ∧
  ∀ k ∈ cs.upgrade_path, trimmedEmpty k = false

instance (cs : ClientState) : Decidable (nineChecks cs) :=
  inferInstanceAs (Decidable (
    cs.chain_id.validate_length 3 maxChainIdLen ∧
    cs.trust_level ≠ TrustThreshold.ZERO ∧
    tendermintTrustThresholdAccepts cs.trust_level.numerator cs.trust_level.denominator ∧
    0 < cs.trusting_period ∧
    0 < cs.unbonding_period ∧
    cs.trusting_period < cs.unbonding_period ∧
    0 < cs.max_clock_drift ∧
    cs.latest_height.revision_number = cs.chain_id.revision_number ∧
    cs.proof_specs ≠ [] ∧
    ∀ k ∈ cs.upgrade_path, trimmedEmpty k = false))

set_option maxHeartbeats 2000000 in
/-- `validate` succeeds exactly when the nine checks all hold. -/
theorem validate_ok_iff (cs : ClientState) : cs.validate = .ok () ↔ nineChecks cs := by
  constructor
  · intro hv
    unfold ClientState.validate at hv
    split_ifs at hv with h1 h2 h3 h4 h5 h6 h7 h8 h9 h10
    refine ⟨h1, h2, h3, by omega, by omega, by omega, by omega, h8, h9, ?_⟩
    intro k hk
    simp only [List.any_eq_true, not_exists, not_and] at h10
    exact Bool.eq_false_iff.mpr (h10 k hk)
  · rintro ⟨c1, c2, c3, c4, c5, c6, c7, c8, c9, c10⟩
    unfold ClientState.validate
    rw [if_neg (not_not_intro c1), if_neg c2, if_neg (not_not_intro c3),
      if_neg (by omega : ¬ cs.trusting_period ≤ 0),
      if_neg (by omega : ¬ cs.unbonding_period ≤ 0),
      if_neg (by omega : ¬ cs.unbonding_period ≤ cs.trusting_period),
      if_neg (by omega : ¬ cs.max_clock_drift ≤ 0),
      if_neg (not_not_intro c8), if_neg c9, if_neg ?_]
    simp only [List.any_eq_true, not_exists, not_and]
    intro k hk
    simp [c10 k hk]

/-- Constructing from the fields of a state whose frozen height is unset
reproduces that state. -/
theorem new_without_validation_fields (cs : ClientState) (h : cs.frozen_height = none) :
    ClientState.new_without_validation cs.chain_id cs.trust_level cs.trusting_period
      cs.unbonding_period cs.max_clock_drift cs.latest_height cs.proof_specs cs.upgrade_path
      cs.allow_update = cs := by
  cases cs
  simp only [ClientState.new_without_validation] at *
  simp_all

/-- `ClientState::new` is `validate` followed by returning the assembled
record. -/
theorem new_fields_eq (cs : ClientState) (h : cs.frozen_height = none) :
    ClientState.new cs.chain_id cs.trust_level cs.trusting_period cs.unbonding_period
      cs.max_clock_drift cs.latest_height cs.proof_specs cs.upgrade_path cs.allow_update =
      (match cs.validate with
        | .error e => .error e
        | .ok _ => .ok cs) := by
  unfold ClientState.new
  rw [new_without_validation_fields cs h]

/-! Claim C5. -/

set_option maxHeartbeats 1000000 in
/-- C5: for all field combinations, `ClientState::new` succeeds exactly
when all nine validation checks pass, evaluated in source order with the
first failure reported as the error, and on failure no (partially valid)
client state is returned. -/
theorem c5_new_iff_nine_checks (cs : ClientState) (hfz : cs.frozen_height = none)
    (r : Except Error ClientState)
    (hr : r = ClientState.new cs.chain_id cs.trust_level cs.trusting_period cs.unbonding_period
      cs.max_clock_drift cs.latest_height cs.proof_specs cs.upgrade_path cs.allow_update) :
    (r = .ok cs ↔ nineChecks cs) ∧
    (∀ e, r = .error e → ¬ nineChecks cs) ∧
    (¬ cs.chain_id.validate_length 3 maxChainIdLen →
      r = .error (.InvalidChainId cs.chain_id.id)) ∧
    (cs.chain_id.validate_length 3 maxChainIdLen →
      cs.trust_level = TrustThreshold.ZERO →
      r = .error (.InvalidTrustThreshold "ClientState trust-level cannot be zero")) ∧
    (cs.chain_id.validate_length 3 maxChainIdLen →
      cs.trust_level ≠ TrustThreshold.ZERO →
      ¬ tendermintTrustThresholdAccepts cs.trust_level.numerator cs.trust_level.denominator →
      r = .error .InvalidTendermintTrustThreshold) ∧
    (cs.chain_id.validate_length 3 maxChainIdLen →
      cs.trust_level ≠ TrustThreshold.ZERO →
      tendermintTrustThresholdAccepts cs.trust_level.numerator cs.trust_level.denominator →
      cs.trusting_period = 0 →
      r = .error (.InvalidTrustThreshold "ClientState trusting period must be greater than zero")) ∧
    (cs.chain_id.validate_length 3 maxChainIdLen →
      cs.trust_level ≠ TrustThreshold.ZERO →
      tendermintTrustThresholdAccepts cs.trust_level.numerator cs.trust_level.denominator →
      0 < cs.trusting_period →
      cs.unbonding_period = 0 →
      r = .error
        (.InvalidTrustThreshold "ClientState unbonding period must be greater than zero")) ∧
    (cs.chain_id.validate_length 3 maxChainIdLen →
      cs.trust_level ≠ TrustThreshold.ZERO →
      tendermintTrustThresholdAccepts cs.trust_level.numerator cs.trust_level.denominator →
      0 < cs.trusting_period →
      0 < cs.unbonding_period →
      cs.unbonding_period ≤ cs.trusting_period →
      r = .error
        (.InvalidTrustThreshold
          "ClientState trusting period must be smaller than unbonding period")) ∧
    (cs.chain_id.validate_length 3 maxChainIdLen →
      cs.trust_level ≠ TrustThreshold.ZERO →
      tendermintTrustThresholdAccepts cs.trust_level.numerator cs.trust_level.denominator →
      0 < cs.trusting_period →
      0 < cs.unbonding_period →
      cs.trusting_period < cs.unbonding_period →
      cs.max_clock_drift = 0 →
      r = .error (.InvalidMaxClockDrift "ClientState max-clock-drift must be greater than zero")) ∧
    (cs.chain_id.validate_length 3 maxChainIdLen →
      cs.trust_level ≠ TrustThreshold.ZERO →
      tendermintTrustThresholdAccepts cs.trust_level.numerator cs.trust_level.denominator →
      0 < cs.trusting_period →
      0 < cs.unbonding_period →
      cs.trusting_period < cs.unbonding_period →
      0 < cs.max_clock_drift →
      cs.latest_height.revision_number ≠ cs.chain_id.revision_number →
      r = .error
        (.InvalidLatestHeight
          "ClientState latest-height revision number must match chain-id version")) ∧
    (cs.chain_id.validate_length 3 maxChainIdLen →
      cs.trust_level ≠ TrustThreshold.ZERO →
      tendermintTrustThresholdAccepts cs.trust_level.numerator cs.trust_level.denominator →
      0 < cs.trusting_period →
      0 < cs.unbonding_period →
      cs.trusting_period < cs.unbonding_period →
      0 < cs.max_clock_drift →
      cs.latest_height.revision_number = cs.chain_id.revision_number →
      cs.proof_specs = [] →
      r = .error (.Validation "ClientState proof-specs cannot be empty")) ∧
    (cs.chain_id.validate_length 3 maxChainIdLen →
      cs.trust_level ≠ TrustThreshold.ZERO →
      tendermintTrustThresholdAccepts cs.trust_level.numerator cs.trust_level.denominator →
      0 < cs.trusting_period →
      0 < cs.unbonding_period →
      cs.trusting_period < cs.unbonding_period →
      0 < cs.max_clock_drift →
      cs.latest_height.revision_number = cs.chain_id.revision_number →
      cs.proof_specs ≠ [] →
      (∃ k ∈ cs.upgrade_path, trimmedEmpty k = true) →
      r = .error (.Validation "ClientState upgrade-path key at index cannot be empty")) := by
  subst hr
  rw [new_fields_eq cs hfz]
  refine ⟨?_, ?_, ?_, ?_, ?_, ?_, ?_, ?_, ?_, ?_, ?_, ?_⟩
  · cases hval : cs.validate with
    | ok u =>
      cases u
      constructor
      · intro _; exact (validate_ok_iff cs).mp hval
      · intro _; rfl
    | error e =>
      constructor
      · intro h; exact absurd h (by simp)
      · intro hn; exact absurd ((validate_ok_iff cs).mpr hn) (by simp [hval])
  · intro e he hn
    rw [(validate_ok_iff cs).mpr hn] at he
    exact absurd he (by simp)
  · intro h1
    have hval : cs.validate = .error (.InvalidChainId cs.chain_id.id) := by
      unfold ClientState.validate
      rw [if_pos h1]
    rw [hval]
  · intro h1 h2
    have hval :
        cs.validate = .error (.InvalidTrustThreshold "ClientState trust-level cannot be zero") := by
      unfold ClientState.validate
      rw [if_neg (not_not_intro h1), if_pos h2]
    rw [hval]
  · intro h1 h2 h3
    have hval : cs.validate = .error .InvalidTendermintTrustThreshold := by
      unfold ClientState.validate
      rw [if_neg (not_not_intro h1), if_neg h2, if_pos h3]
    rw [hval]
  · intro h1 h2 h3 h4
    have hval :
        cs.validate =
          .error (.InvalidTrustThreshold
            "ClientState trusting period must be greater than zero") := by
      unfold ClientState.validate
      rw [if_neg (not_not_intro h1), if_neg h2, if_neg (not_not_intro h3),
        if_pos (by omega : cs.trusting_period ≤ 0)]
    rw [hval]
  · intro h1 h2 h3 h4 h5
    have hval :
        cs.validate =
          .error (.InvalidTrustThreshold
            "ClientState unbonding period must be greater than zero") := by
      unfold ClientState.validate
      rw [if_neg (not_not_intro h1), if_neg h2, if_neg (not_not_intro h3),
        if_neg (by omega : ¬ cs.trusting_period ≤ 0),
        if_pos (by omega : cs.unbonding_period ≤ 0)]
    rw [hval]
  · intro h1 h2 h3 h4 h5 h6
    have hval :
        cs.validate =
          .error (.InvalidTrustThreshold
            "ClientState trusting period must be smaller than unbonding period") := by
      unfold ClientState.validate
      rw [if_neg (not_not_intro h1), if_neg h2, if_neg (not_not_intro h3),
        if_neg (by omega : ¬ cs.trusting_period ≤ 0),
        if_neg (by omega : ¬ cs.unbonding_period ≤ 0),
        if_pos h6]
    rw [hval]
  · intro h1 h2 h3 h4 h5 h6 h7
    have hval :
        cs.validate =
          .error (.InvalidMaxClockDrift
            "ClientState max-clock-drift must be greater than zero") := by
      unfold ClientState.validate
      rw [if_neg (not_not_intro h1), if_neg h2, if_neg (not_not_intro h3),
        if_neg (by omega : ¬ cs.trusting_period ≤ 0),
        if_neg (by omega : ¬ cs.unbonding_period ≤ 0),
        if_neg (by omega : ¬ cs.unbonding_period ≤ cs.trusting_period),
        if_pos (by omega : cs.max_clock_drift ≤ 0)]
    rw [hval]
  · intro h1 h2 h3 h4 h5 h6 h7 h8
    have hval :
        cs.validate =
          .error (.InvalidLatestHeight
            "ClientState latest-height revision number must match chain-id version") := by
      unfold ClientState.validate
      rw [if_neg (not_not_intro h1), if_neg h2, if_neg (not_not_intro h3),
        if_neg (by omega : ¬ cs.trusting_period ≤ 0),
        if_neg (by omega : ¬ cs.unbonding_period ≤ 0),
        if_neg (by omega : ¬ cs.unbonding_period ≤ cs.trusting_period),
        if_neg (by omega : ¬ cs.max_clock_drift ≤ 0),
        if_pos h8]
    rw [hval]
  · intro h1 h2 h3 h4 h5 h6 h7 h8 h9
    have hval : cs.validate = .error (.Validation "ClientState proof-specs cannot be empty") := by
      unfold ClientState.validate
      rw [if_neg (not_not_intro h1), if_neg h2, if_neg (not_not_intro h3),
        if_neg (by omega : ¬ cs.trusting_period ≤ 0),
        if_neg (by omega : ¬ cs.unbonding_period ≤ 0),
        if_neg (by omega : ¬ cs.unbonding_period ≤ cs.trusting_period),
        if_neg (by omega : ¬ cs.max_clock_drift ≤ 0),
        if_neg (not_not_intro h8), if_pos h9]
    rw [hval]
  · intro h1 h2 h3 h4 h5 h6 h7 h8 h9 h10
    have hval :
        cs.validate =
          .error (.Validation "ClientState upgrade-path key at index cannot be empty") := by
      unfold ClientState.validate
      rw [if_neg (not_not_intro h1), if_neg h2, if_neg (not_not_intro h3),
        if_neg (by omega : ¬ cs.trusting_period ≤ 0),
        if_neg (by omega : ¬ cs.unbonding_period ≤ 0),
        if_neg (by omega : ¬ cs.unbonding_period ≤ cs.trusting_period),
        if_neg (by omega : ¬ cs.max_clock_drift ≤ 0),
        if_neg (not_not_intro h8), if_neg h9,
        if_pos (List.any_eq_true.mpr (by
          obtain ⟨k, hk, hbk⟩ := h10
          exact ⟨k, hk, hbk⟩))]
    rw [hval]

/-- C5 witness: the dummy parameters construct successfully; the same
parameters with trusting period equal to unbonding period fail with the
dedicated error. -/
theorem c5_witness :
    ClientState.new chainIbc0 TrustThreshold.ONE_THIRD 64000000000000 128000000000000
        3000000000 { revision_number := 0, revision_height := 10 } ProofSpecs.cosmos [] noAllow =
      .ok dummyClientState ∧
    ClientState.new chainIbc0 TrustThreshold.ONE_THIRD 64000000000000 64000000000000
        3000000000 { revision_number := 0, revision_height := 10 } ProofSpecs.cosmos [] noAllow =
      .error
        (.InvalidTrustThreshold
          "ClientState trusting period must be smaller than unbonding period") := by
  constructor
  · exact (c5_new_iff_nine_checks dummyClientState rfl _ rfl).1.mpr (by decide)
  · exact (c5_new_iff_nine_checks
      { dummyClientState with unbonding_period := 64000000000000 } rfl _ rfl).2.2.2.2.2.2.2.1
      (by decide) (by decide) (by decide) (by decide) (by decide) (by decide)

/-- Any successfully decoded raw client state has its frozen height
unset: the decoder rejects every decodable non-zero frozen height and
`new_without_validation` installs `None`. -/
theorem tryFromRaw_frozen_none (raw : RawTmClientState) (cs : ClientState)
    (h : ClientState.tryFromRaw raw = .ok cs) : cs.frozen_height = none := by
  unfold ClientState.tryFromRaw at h
  repeat' split at h
  all_goals simp_all [ClientState.new_without_validation]
  exact h.symm ▸ rfl

/-! Claim C1. -/

/-- Wire client state with the trusting and unbonding periods swapped:
it decodes, but the decoded state fails validation. -/
def rawSwappedPeriods : RawTmClientState :=
  { chain_id := "ibc-0"
    trust_level := some { numerator := 1, denominator := 3 }
    trusting_period := some (Int.ofNat 128000000000000)
    unbonding_period := some (Int.ofNat 64000000000000)
    max_clock_drift := some (Int.ofNat 3000000000)
    frozen_height := some { revision_number := 0, revision_height := 0 }
    latest_height := some { revision_number := 0, revision_height := 10 }
    proof_specs := ProofSpecs.cosmos
    upgrade_path := []
    allow_update_after_expiry := false
    allow_update_after_misbehaviour := false }

/-- The client state `rawSwappedPeriods` decodes to. -/
def swappedClientState : ClientState :=
  { dummyClientState with
    trusting_period := 128000000000000
    unbonding_period := 64000000000000 }

/-- C1 counterexample: a raw client state whose conversion succeeds but
whose result fails `validate` (trusting period not below unbonding
period), so decoding does not enforce the construction checks. -/
theorem c1_decode_without_validation_cex :
    ClientState.tryFromRaw rawSwappedPeriods = .ok swappedClientState ∧
    swappedClientState.validate =
      .error
        (.InvalidTrustThreshold
          "ClientState trusting period must be smaller than unbonding period") ∧
    swappedClientState.validate ≠ .ok () := by
  refine ⟨by decide, by decide, by decide⟩

/-- C1 (amended): a successful conversion from the raw wire form
guarantees only the decode-time checks — in particular the result is
never frozen — and `validate` on the decoded state succeeds exactly when
the nine construction checks hold of the decoded fields; decoding itself
does not run them. -/
theorem c1_decode_skips_validation (raw : RawTmClientState) (cs : ClientState)
    (h : ClientState.tryFromRaw raw = .ok cs) :
    cs.frozen_height = none ∧ (cs.validate = .ok () ↔ nineChecks cs) :=
  ⟨tryFromRaw_frozen_none raw cs h, validate_ok_iff cs⟩

/-- C1 witness: the dummy raw client state decodes to the dummy client
state, which is unfrozen and satisfies the nine checks. -/
theorem c1_witness :
    dummyClientState.frozen_height = none ∧
      (dummyClientState.validate = .ok () ↔ nineChecks dummyClientState) :=
  c1_decode_skips_validation dummyClientState.toRaw dummyClientState (by decide)

/-! Claim C2. -/

/-- A single-client store slice holding only a client state. -/
def recOfState (cs : ClientState) : ClientRecord :=
  { clientState := cs, consensusStates := [], updateTimes := [], updateHeights := [] }

/-- C2 (amended): on misbehaviour the stored client state is frozen at
`Height::min(0)` — the lowest height of revision `0`, independent of the
observed misbehaviour height and of the client's own revision — and its
`is_frozen` is true. -/
theorem c2_freeze_sets_min_height_revision_zero (cs : ClientState) (rec : ClientRecord) :
    (cs.update_state_on_misbehaviour rec).clientState.frozen_height = some (Height.minH 0) ∧
    (cs.update_state_on_misbehaviour rec).clientState.is_frozen = true := by
  exact ⟨rfl, rfl⟩

/-- A valid client state living on revision `1`. -/
def revisionOneClientState : ClientState :=
  { dummyClientState with
    chain_id := chainIbc1
    latest_height := { revision_number := 1, revision_height := 10 } }

/-- C2 counterexample: for a revision-`1` client the frozen marker stored
on misbehaviour is the lowest height of revision `0`, not the lowest
height within the client's current revision. -/
theorem c2_freeze_revision_cex :
    revisionOneClientState.validate = .ok () ∧
    revisionOneClientState.chain_id.revision_number = 1 ∧
    (revisionOneClientState.update_state_on_misbehaviour
        (recOfState revisionOneClientState)).clientState.frozen_height =
      some { revision_number := 0, revision_height := 1 } ∧
    ({ revision_number := 0, revision_height := 1 } : Height) ≠
      Height.minH revisionOneClientState.chain_id.revision_number := by
  refine ⟨by decide, by decide, by decide, by decide⟩

/-! Claim C3. -/

/-- A valid client state whose upgrade path has exactly one segment
(permitted by `validate`). -/
def oneSegmentClientState : ClientState :=
  { dummyClientState with upgrade_path := ["upgrade"] }

/-- A valid client state with an empty upgrade path. -/
def emptyPathClientState : ClientState := dummyClientState

/-- Raw upgraded client state at a strictly higher latest height. -/
def upgradedRawClientState : RawTmClientState :=
  { dummyClientState.toRaw with
    latest_height := some { revision_number := 0, revision_height := 11 } }

/-- The client state `upgradedRawClientState` decodes to. -/
def upgradedClientDecoded : ClientState :=
  { dummyClientState with latest_height := { revision_number := 0, revision_height := 11 } }

def upgradedClientAny : AnyMsg :=
  { type_url := TENDERMINT_CLIENT_STATE_TYPE_URL
    value := .rawClientState upgradedRawClientState }

def upgradedConsAny : AnyMsg :=
  { type_url := TENDERMINT_CONSENSUS_STATE_TYPE_URL
    value := .consensusState { root := [1], timestamp := 0, next_validators_hash := [2] } }

/-- A membership verifier that accepts every proof. -/
def mvTrue : MembershipVerifier := fun _ _ _ _ _ => true

/-- C3: on a validation-passing client state whose upgrade path has
exactly one segment, `verify_upgrade_client` reaches the out-of-bounds
index `upgrade_path[0]` after popping the only segment and crashes
instead of returning an error; with an empty upgrade path it does return
the dedicated error. -/
theorem c3_upgrade_single_segment_crash :
    oneSegmentClientState.validate = .ok () ∧
    oneSegmentClientState.verify_upgrade_client mvTrue upgradedClientAny upgradedConsAny
      (some { proof_id := 0 }) (some { proof_id := 0 }) [0] = .crash ∧
    emptyPathClientState.validate = .ok () ∧
    emptyPathClientState.verify_upgrade_client mvTrue upgradedClientAny upgradedConsAny
      (some { proof_id := 0 }) (some { proof_id := 0 }) [0] =
      .error (.ClientSpecific "cannot upgrade client as no upgrade path has been set") := by
  refine ⟨by decide, by decide, by decide, by decide⟩

/-! Claim C4. -/

instance (c : ChainId) : Decidable c.wellFormed :=
  inferInstanceAs (Decidable (c.id ≠ "" ∧ parseRevisionNumber c.id = c.revision_number))

/-- C4 (amended): for every client state that passes `validate`, whose
frozen height is unset and whose chain id, trust level and latest height
satisfy their constructors' type invariants, encoding to the `Any`
envelope and decoding back returns the original state. -/
theorem c4_roundtrip_unfrozen (cs : ClientState)
    (_hval : cs.validate = .ok ()) (hfz : cs.frozen_height = none)
    (hcid : cs.chain_id.wellFormed)
    (htl : cs.trust_level.numerator < cs.trust_level.denominator)
    (hlh : cs.latest_height.revision_height ≠ 0) :
    ClientState.tryFromAny (ClientState.toAny cs) = .ok cs := by
  obtain ⟨hne, hrev⟩ := hcid
  have hden : cs.trust_level.denominator ≠ 0 := by omega
  have h1 : ChainId.fromStr cs.chain_id.toStr = some cs.chain_id := by
    unfold ChainId.fromStr ChainId.toStr
    rw [if_neg hne, hrev]
  have h2 : TrustThreshold.tryFromFraction cs.trust_level.toFraction = some cs.trust_level := by
    simp [TrustThreshold.tryFromFraction, TrustThreshold.toFraction, hden, htl]
  have h3 : ∀ (n : Nat) (e : Error), reqDuration (some ((n : Nat) : Int)) e = .ok n := by
    intro n e
    simp [reqDuration, tryIntoDuration]
  have h4 : reqHeight (some cs.latest_height.toRaw) .MissingLatestHeight =
      .ok cs.latest_height := by
    simp [reqHeight, Height.tryFromRaw, Height.toRaw, hlh]
  have hmain : ClientState.tryFromRaw cs.toRaw = .ok cs := by
    unfold ClientState.tryFromRaw ClientState.toRaw
    simp [h1, h2, h3, h4, hfz, Height.tryFromRaw, new_without_validation_fields cs hfz]
  unfold ClientState.toAny ClientState.tryFromAny
  simp [hmain]

/-- C4 witness: the dummy client state round-trips through the `Any`
envelope. -/
theorem c4_witness :
    dummyClientState.validate = .ok () ∧ dummyClientState.frozen_height = none ∧
    ClientState.tryFromAny (ClientState.toAny dummyClientState) = .ok dummyClientState :=
  ⟨by decide, rfl,
    c4_roundtrip_unfrozen dummyClientState (by decide) rfl (by decide) (by decide) (by decide)⟩

/-- The dummy client state frozen through `with_frozen_height`. -/
def frozenDummyClientState : ClientState := dummyClientState.with_frozen_height (Height.minH 0)

/-- C4 counterexample: a valid client state whose frozen height was set
via `with_frozen_height` does not round-trip — decoding its encoding
fails with `FrozenHeightNotAllowed` instead of returning the state. -/
theorem c4_roundtrip_frozen_cex :
    frozenDummyClientState.validate = .ok () ∧
    ClientState.tryFromAny (ClientState.toAny frozenDummyClientState) =
      .error (.client .FrozenHeightNotAllowed) ∧
    ClientState.tryFromAny (ClientState.toAny frozenDummyClientState) ≠
      .ok frozenDummyClientState := by
  refine ⟨by decide, by decide, by decide⟩

/-! Claim C6. -/

/-- C6: `status` is frozen-first (for every lookup result and host time),
expired on a missing consensus state, lenient on a future consensus
timestamp, still active at exactly the trusting period, and expired only
strictly beyond it. -/
theorem c6_status_cases (cs : ClientState) (lookup : Option TmConsensusState) (now : Nat) :
    (cs.is_frozen = true → cs.status lookup now = .Frozen) ∧
    (cs.is_frozen = false → lookup = none → cs.status lookup now = .Expired) ∧
    (∀ c, cs.is_frozen = false → lookup = some c → now < c.timestamp →
      cs.status lookup now = .Active) ∧
    (∀ c, cs.is_frozen = false → lookup = some c → now = c.timestamp + cs.trusting_period →
      cs.status lookup now = .Active) ∧
    (∀ c, cs.is_frozen = false → lookup = some c → c.timestamp + cs.trusting_period < now →
      cs.status lookup now = .Expired) := by
  refine ⟨?_, ?_, ?_, ?_, ?_⟩
  · intro h
    simp [ClientState.status, h]
  · intro h hl
    simp [ClientState.status, h, hl]
  · intro c h hl hn
    have : ¬ c.timestamp ≤ now := by omega
    simp [ClientState.status, h, hl, durationSince, this]
  · intro c h hl hn
    have h1 : c.timestamp ≤ now := by omega
    have h2 : ¬ cs.trusting_period < now - c.timestamp := by omega
    simp [ClientState.status, h, hl, durationSince, h1, h2]
  · intro c h hl hn
    have h1 : c.timestamp ≤ now := by omega
    have h2 : cs.trusting_period < now - c.timestamp := by omega
    simp [ClientState.status, h, hl, durationSince, h1, h2]

/-- A consensus-state value with a given timestamp, for witnesses. -/
def tmConsAt (t : Nat) : TmConsensusState :=
  { root := [1], timestamp := t, next_validators_hash := [2] }

/-- C6 witness: the five status cases at concrete inputs — frozen wins
with a consensus state present, a missing consensus state expires, a
future consensus timestamp stays active, elapsed time exactly the
trusting period stays active, and one nanosecond beyond expires. -/
theorem c6_witness :
    frozenDummyClientState.status (some (tmConsAt 5)) 100 = .Frozen ∧
    dummyClientState.status none 100 = .Expired ∧
    dummyClientState.status (some (tmConsAt 200)) 100 = .Active ∧
    dummyClientState.status (some (tmConsAt 100)) (100 + 64000000000000) = .Active ∧
    dummyClientState.status (some (tmConsAt 100)) (100 + 64000000000000 + 1) = .Expired := by
  refine ⟨(c6_status_cases frozenDummyClientState (some (tmConsAt 5)) 100).1 rfl,
    (c6_status_cases dummyClientState none 100).2.1 rfl rfl,
    (c6_status_cases dummyClientState (some (tmConsAt 200)) 100).2.2.1 (tmConsAt 200) rfl rfl
      (by decide),
    (c6_status_cases dummyClientState (some (tmConsAt 100)) (100 + 64000000000000)).2.2.2.1
      (tmConsAt 100) rfl rfl (by decide),
    (c6_status_cases dummyClientState (some (tmConsAt 100)) (100 + 64000000000000 + 1)).2.2.2.2
      (tmConsAt 100) rfl rfl (by decide)⟩

/-! Claim C7. -/

/-- C7 (amended): when a consensus state already exists at the header's
height after the prune step, and pruning removes nothing, `update_state`
leaves the store untouched and still returns the single header height;
in particular re-submitting the same header under these conditions is
idempotent. -/
theorem c7_update_existing_no_writes (cs : ClientState) (rec : ClientRecord)
    (hostTimestamp : Nat) (hostHeight : Height) (header : TmHeader) (c : TmConsensusState)
    (hprune : prune_oldest_consensus_state cs rec hostTimestamp = rec)
    (hex : lookupKV header.height rec.consensusStates = some c) :
    cs.update_state rec hostTimestamp hostHeight header = (rec, [header.height]) := by
  unfold ClientState.update_state
  simp [hprune, hex]

/-- Store slice for the C7 witness: the header's consensus state is
already installed at its height and nothing is prunable. -/
def witnessRecord : ClientRecord :=
  { clientState := dummyClientState
    consensusStates := [({ revision_number := 0, revision_height := 10 }, tmConsAt 500)]
    updateTimes := []
    updateHeights := [] }

/-- The header whose re-submission the C7 witness exercises. -/
def witnessHeader : TmHeader :=
  { height := { revision_number := 0, revision_height := 10 }, consensusState := tmConsAt 500 }

/-- C7 witness: re-submitting the already-installed header is a no-op
that still returns the header height. -/
theorem c7_witness :
    dummyClientState.update_state witnessRecord 600 { revision_number := 0, revision_height := 5 }
      witnessHeader = (witnessRecord, [witnessHeader.height]) :=
  c7_update_existing_no_writes dummyClientState witnessRecord 600
    { revision_number := 0, revision_height := 5 } witnessHeader (tmConsAt 500) (by decide)
    (by decide)

/-- Stale consensus state (timestamp `0`) used by the C7 counterexample. -/
def staleCons : TmConsensusState :=
  { root := [3], timestamp := 0, next_validators_hash := [4] }

/-- Consensus state carried by the counterexample header. -/
def hdrCons : TmConsensusState :=
  { root := [9], timestamp := 500, next_validators_hash := [7] }

/-- The counterexample header, at height `(0, 10)`. -/
def cexHeader : TmHeader :=
  { height := { revision_number := 0, revision_height := 10 }, consensusState := hdrCons }

/-- Store slice for the C7 counterexample: the header's consensus state
is already installed with matching content, but two stale consensus
states sit outside the unbonding period. -/
def cexRecord : ClientRecord :=
  { clientState := dummyClientState
    consensusStates :=
      [({ revision_number := 0, revision_height := 1 }, staleCons),
        ({ revision_number := 0, revision_height := 2 }, staleCons),
        ({ revision_number := 0, revision_height := 10 }, hdrCons)]
    updateTimes := []
    updateHeights := [] }

/-- C7 counterexample: with a matching consensus state already installed
at the header's height, the call is not a no-op — the prune step removes
a stale consensus state — and a second identical call changes the store
again, so the state after the second call differs from the state after
the first. -/
theorem c7_update_not_noop_cex :
    lookupKV cexHeader.height cexRecord.consensusStates =
      some (TmConsensusState.fromHeader cexHeader) ∧
    (dummyClientState.update_state cexRecord 200000000000000
        { revision_number := 0, revision_height := 5 } cexHeader).1 ≠ cexRecord ∧
    (dummyClientState.update_state
        (dummyClientState.update_state cexRecord 200000000000000
          { revision_number := 0, revision_height := 5 } cexHeader).1
        200000000000000 { revision_number := 0, revision_height := 5 } cexHeader).1 ≠
      (dummyClientState.update_state cexRecord 200000000000000
        { revision_number := 0, revision_height := 5 } cexHeader).1 := by
  refine ⟨by decide, by decide, by decide⟩

/-! Claim C8. -/

/-- C8: `verify_upgrade_client` returns an error — neither committing
anything (it writes nothing by construction) nor crashing — whenever the
submitted upgraded client state or consensus state fails to decode as the
Tendermint type (in particular on a wrong type identifier), whenever the
upgraded latest height is not strictly above the current one, and
whenever no upgrade path has been set. -/
theorem c8_upgrade_preconditions (cs : ClientState) (mv : MembershipVerifier)
    (upCl upCons : AnyMsg) (pCl pCons : CommitmentProofBytes) (root : List Nat) :
    (∀ e, ClientState.tryFromAny upCl = .error e →
      cs.verify_upgrade_client mv upCl upCons pCl pCons root = .error e) ∧
    (upCl.type_url ≠ TENDERMINT_CLIENT_STATE_TYPE_URL →
      cs.verify_upgrade_client mv upCl upCons pCl pCons root =
        .error (.UnknownClientStateType upCl.type_url)) ∧
    (∀ up e, ClientState.tryFromAny upCl = .ok up →
      TmConsensusState.tryFromAny upCons = .error e →
      cs.verify_upgrade_client mv upCl upCons pCl pCons root = .error e) ∧
    (∀ up, ClientState.tryFromAny upCl = .ok up →
      upCons.type_url ≠ TENDERMINT_CONSENSUS_STATE_TYPE_URL →
      cs.verify_upgrade_client mv upCl upCons pCl pCons root =
        .error (.UnknownConsensusStateType upCons.type_url)) ∧
    (∀ up c, ClientState.tryFromAny upCl = .ok up →
      TmConsensusState.tryFromAny upCons = .ok c →
      Height.le up.latest_height cs.latest_height = true →
      cs.verify_upgrade_client mv upCl upCons pCl pCons root =
        .error (.LowUpgradeHeight cs.latest_height up.latest_height)) ∧
    (∀ up c, ClientState.tryFromAny upCl = .ok up →
      TmConsensusState.tryFromAny upCons = .ok c →
      Height.le up.latest_height cs.latest_height = false →
      cs.upgrade_path = [] →
      cs.verify_upgrade_client mv upCl upCons pCl pCons root =
        .error (.ClientSpecific "cannot upgrade client as no upgrade path has been set")) := by
  refine ⟨?_, ?_, ?_, ?_, ?_, ?_⟩
  · intro e he
    unfold ClientState.verify_upgrade_client
    rw [he]
  · intro hurl
    have he : ClientState.tryFromAny upCl = .error (.UnknownClientStateType upCl.type_url) := by
      unfold ClientState.tryFromAny
      rw [if_neg hurl]
    unfold ClientState.verify_upgrade_client
    rw [he]
  · intro up e hup hcons
    unfold ClientState.verify_upgrade_client
    rw [hup, hcons]
  · intro up hup hurl
    have he : TmConsensusState.tryFromAny upCons =
        .error (.UnknownConsensusStateType upCons.type_url) := by
      unfold TmConsensusState.tryFromAny
      rw [if_neg hurl]
    unfold ClientState.verify_upgrade_client
    rw [hup, he]
  · intro up c hup hcons hle
    unfold ClientState.verify_upgrade_client
    rw [hup, hcons]
    simp [hle]
  · intro up c hup hcons hle hpath
    unfold ClientState.verify_upgrade_client
    rw [hup, hcons]
    simp [hle, hpath]

/-- An `Any` message with a foreign type identifier. -/
def bogusAny : AnyMsg := { type_url := "/bogus.Type", value := .otherBytes }

def dummyClientAny : AnyMsg :=
  { type_url := TENDERMINT_CLIENT_STATE_TYPE_URL
    value := .rawClientState dummyClientState.toRaw }

/-- C8 witness: a foreign upgraded client type is rejected with the
unknown-type error, an upgraded latest height equal to the current one is
rejected with the low-upgrade-height error, and a missing upgrade path is
rejected with the dedicated error. -/
theorem c8_witness :
    dummyClientState.verify_upgrade_client mvTrue bogusAny upgradedConsAny
      (some { proof_id := 0 }) (some { proof_id := 0 }) [0] =
      .error (.UnknownClientStateType "/bogus.Type") ∧
    dummyClientState.verify_upgrade_client mvTrue dummyClientAny upgradedConsAny
      (some { proof_id := 0 }) (some { proof_id := 0 }) [0] =
      .error (.LowUpgradeHeight
        { revision_number := 0, revision_height := 10 }
        { revision_number := 0, revision_height := 10 }) ∧
    dummyClientState.verify_upgrade_client mvTrue upgradedClientAny upgradedConsAny
      (some { proof_id := 0 }) (some { proof_id := 0 }) [0] =
      .error (.ClientSpecific "cannot upgrade client as no upgrade path has been set") :=
  ⟨(c8_upgrade_preconditions dummyClientState mvTrue bogusAny upgradedConsAny
      (some { proof_id := 0 }) (some { proof_id := 0 }) [0]).2.1 (by decide),
    (c8_upgrade_preconditions dummyClientState mvTrue dummyClientAny upgradedConsAny
      (some { proof_id := 0 }) (some { proof_id := 0 }) [0]).2.2.2.2.1 dummyClientState
      (tmConsAt 0) (by decide) (by decide) (by decide),
    (c8_upgrade_preconditions dummyClientState mvTrue upgradedClientAny upgradedConsAny
      (some { proof_id := 0 }) (some { proof_id := 0 }) [0]).2.2.2.2.2 upgradedClientDecoded
      (tmConsAt 0) (by decide) (by decide) (by decide) (by decide)⟩

/-! Claim C9. -/

/-- A required duration only ever fails with the error it was given. -/
theorem reqDuration_eq_error_iff (o : Option Int) (e e' : Error) :
    reqDuration o e = .error e' ↔
      (e' = e ∧ (o = none ∨ ∃ d, o = some d ∧ tryIntoDuration d = none)) := by
  unfold reqDuration
  cases o with
  | none => simp [eq_comm]
  | some d => cases h : tryIntoDuration d <;> simp [h, eq_comm]

/-- A required height only ever fails with the error it was given. -/
theorem reqHeight_eq_error_iff (o : Option RawHeight) (e e' : Error) :
    reqHeight o e = .error e' ↔
      (e' = e ∧ (o = none ∨ ∃ r, o = some r ∧ Height.tryFromRaw r = none)) := by
  unfold reqHeight
  cases o with
  | none => simp [eq_comm]
  | some r => cases h : Height.tryFromRaw r <;> simp [h, eq_comm]

set_option maxHeartbeats 1000000 in
/-- C9 (amended): a raw client state whose frozen-height field decodes to
a valid (non-zero) height never converts successfully; the reported error
is `FrozenHeightNotAllowed` whenever the remaining fields decode
(earlier field errors otherwise take precedence); a zero frozen height
never triggers that error; and every successfully decoded client state is
unfrozen. -/
theorem c9_frozen_decode_rejected (raw : RawTmClientState) :
    (∀ h, raw.frozen_height = some h → h.revision_height ≠ 0 →
      ∀ cs, ClientState.tryFromRaw raw ≠ .ok cs) ∧
    (∀ h cs0, raw.frozen_height = some h → h.revision_height ≠ 0 →
      ClientState.tryFromRaw { raw with frozen_height := none } = .ok cs0 →
      ClientState.tryFromRaw raw = .error .FrozenHeightNotAllowed) ∧
    ((raw.frozen_height = none ∨ ∃ h, raw.frozen_height = some h ∧ h.revision_height = 0) →
      ClientState.tryFromRaw raw ≠ .error .FrozenHeightNotAllowed) ∧
    (∀ cs, ClientState.tryFromRaw raw = .ok cs → cs.frozen_height = none) := by
  refine ⟨?_, ?_, ?_, ?_⟩
  · intro h hfz hrh cs hok
    unfold ClientState.tryFromRaw at hok
    repeat' split at hok
    all_goals simp_all [Height.tryFromRaw]
  · intro h cs0 hfz hrh hok0
    unfold ClientState.tryFromRaw at hok0
    repeat' split at hok0
    all_goals simp_all [ClientState.tryFromRaw, Height.tryFromRaw]
  · intro hz hcontra
    unfold ClientState.tryFromRaw at hcontra
    rcases hz with hnone | ⟨h0, hfz0, hrh0⟩ <;>
      · repeat' split at hcontra
        all_goals
          simp_all [Height.tryFromRaw, reqDuration_eq_error_iff, reqHeight_eq_error_iff]
  · exact fun cs h => tryFromRaw_frozen_none raw cs h

/-- Raw dummy client state carrying a non-zero frozen height. -/
def frozenRawClientState : RawTmClientState :=
  { dummyClientState.toRaw with
    frozen_height := some { revision_number := 0, revision_height := 3 } }

/-- C9 witness: the pre-frozen raw dummy state is rejected with
`FrozenHeightNotAllowed` and cannot decode to the dummy state, while the
zero-frozen-height dummy raw never reports that error. -/
theorem c9_witness :
    ClientState.tryFromRaw frozenRawClientState = .error .FrozenHeightNotAllowed ∧
    ClientState.tryFromRaw frozenRawClientState ≠ .ok dummyClientState ∧
    ClientState.tryFromRaw dummyClientState.toRaw ≠ .error .FrozenHeightNotAllowed :=
  ⟨(c9_frozen_decode_rejected frozenRawClientState).2.1
      { revision_number := 0, revision_height := 3 } dummyClientState rfl (by decide) (by decide),
    (c9_frozen_decode_rejected frozenRawClientState).1
      { revision_number := 0, revision_height := 3 } rfl (by decide) dummyClientState,
    (c9_frozen_decode_rejected dummyClientState.toRaw).2.2.1
      (Or.inr ⟨{ revision_number := 0, revision_height := 0 }, rfl, rfl⟩)⟩

/-- The pre-frozen raw state with its trusting period also missing. -/
def badFrozenRaw : RawTmClientState :=
  { frozenRawClientState with trusting_period := none }

/-- C9 counterexample: a raw client state with a decodable non-zero
frozen height whose conversion fails, but with the missing-trusting-
period error rather than the frozen-height-not-allowed error the claim
promises for every such input. -/
theorem c9_error_variant_cex :
    badFrozenRaw.frozen_height = some { revision_number := 0, revision_height := 3 } ∧
    ClientState.tryFromRaw badFrozenRaw = .error .MissingTrustingPeriod ∧
    ClientState.tryFromRaw badFrozenRaw ≠ .error .FrozenHeightNotAllowed := by
  refine ⟨by decide, by decide, by decide⟩

/-! Claim C10. -/

/-- C10: membership and non-membership verification are total on
arbitrary proof bytes — the result is success or one of the two
cryptographic-verification errors; malformed proof bytes always yield
the reported invalid-commitment-proof error.  (Both functions are plain
functions of their inputs: determinism and absence of state mutation are
inherent in the embedding, mirroring the `&self` receivers.) -/
theorem c10_verify_total (cs : ClientState) (mv : MembershipVerifier)
    (mnv : NonMembershipVerifier) (pfx : String) (proof : CommitmentProofBytes)
    (root : List Nat) (path : String) (value : List Nat) :
    (cs.verify_membership mv pfx proof root path value = .ok () ∨
      cs.verify_membership mv pfx proof root path value = .error .InvalidCommitmentProof ∨
      cs.verify_membership mv pfx proof root path value = .error .Ics23Verification) ∧
    (proof = none →
      cs.verify_membership mv pfx proof root path value = .error .InvalidCommitmentProof) ∧
    (cs.verify_non_membership mnv pfx proof root path = .ok () ∨
      cs.verify_non_membership mnv pfx proof root path = .error .InvalidCommitmentProof ∨
      cs.verify_non_membership mnv pfx proof root path = .error .Ics23Verification) ∧
    (proof = none →
      cs.verify_non_membership mnv pfx proof root path = .error .InvalidCommitmentProof) := by
  refine ⟨?_, ?_, ?_, ?_⟩
  · cases proof with
    | none => right; left; rfl
    | some mp =>
      unfold ClientState.verify_membership
      by_cases h : mv cs.proof_specs root (applyPfx pfx path) value mp
      · left; simp [h]
      · right; right; simp [h]
  · intro h
    subst h
    rfl
  · cases proof with
    | none => right; left; rfl
    | some mp =>
      unfold ClientState.verify_non_membership
      by_cases h : mnv cs.proof_specs root (applyPfx pfx path) mp
      · left; simp [h]
      · right; right; simp [h]
  · intro h
    subst h
    rfl

/-- A non-membership verifier that accepts everything. -/
def mnvTrue : NonMembershipVerifier := fun _ _ _ _ => true

/-- C10 witness: malformed proof bytes produce the reported
invalid-commitment-proof error for both verification routines at a
concrete input. -/
theorem c10_witness :
    dummyClientState.verify_membership mvTrue "ibc" none [0] "p" [1] =
      .error .InvalidCommitmentProof ∧
    dummyClientState.verify_non_membership mnvTrue "ibc" none [0] "p" =
      .error .InvalidCommitmentProof :=
  ⟨(c10_verify_total dummyClientState mvTrue mnvTrue "ibc" none [0] "p" [1]).2.1 rfl,
    (c10_verify_total dummyClientState mvTrue mnvTrue "ibc" none [0] "p" [1]).2.2.2 rfl⟩

end Ics07
